import Mathlib

/-!
Verification of the AskPandas demo/test script repository.

The repository consists of eight Python scripts that exercise the external
`askpandas` library.  This file gives a shallow embedding of the parts of
those scripts that the specification talks about:

* the LLM-setup control flow (`simple_config.py`, and the setup helpers of
  the demo scripts), embedded as an event-trace semantics over an
  environment that says, for each model name, whether backend construction
  raises and whether the availability probe answers true;
* the top-level control flow of each script's `main`, embedded as a list of
  coarse-grained actions depending on the same environment;
* a static inventory of each script: its imports, locally defined
  functions, askpandas call sites (with the information whether an
  exception raised there is caught by a handler inside the script),
  chat-call sites, and CSV reads/writes;
* the file-existence semantics of `test_basic_functionality.py`;
* the revenue-column computation of the sample-data constructors, over
  exact rational arithmetic.
-/

namespace AskPandas

/-! ## LLM setup: events and environment -/

/-- One observable step of an LLM-setup attempt: constructing a backend
object, the construction raising, probing `is_available`, or installing the
backend globally via `ap.set_llm`. -/
inductive Event where
  | construct (model : String)
  | constructFailed (model : String)
  | probe (model : String) (result : Bool)
  | setLlm (model : String)
deriving DecidableEq

/-- The environment a script runs against: for each model name, whether
constructing the backend object raises, and what the `is_available` probe
returns when construction succeeded. -/
structure LlmEnv where
  raises : String → Bool
  avail : String → Bool

/-- The list of lightweight models tried, in order, by
`setup_lightweight_ollama` in `simple_config.py`. -/
def lightModels : List String := ["phi3:mini", "llama3.2:3b", "mistral:7b", "gemma:2b"]

/-- The Hugging Face model name used by `setup_huggingface_lightweight`. -/
def hfModel : String := "microsoft/DialoGPT-small"

/-- A model attempt succeeds when construction does not raise and the
availability probe answers true. -/
def modelOk (env : LlmEnv) (m : String) : Bool := !env.raises m && env.avail m

/-- A single guarded setup attempt, shared shape of `setup_llm` (demo.py),
`setup_simple_llm` (simple_demo.py), the setup blocks of
`demo_ai_powered_queries` (complete_workflow_demo.py,
final_working_demo.py), `test_ai_powered_queries` (comprehensive_test.py)
and `setup_huggingface_lightweight` (simple_config.py): inside a
`try`, construct the backend; if `is_available()` returns true, call
`ap.set_llm` and report success, otherwise report failure; a raise is
caught and reported as failure. -/
def setupAttempt (env : LlmEnv) (model : String) : List Event × Bool :=
  if env.raises model then ([Event.construct model, Event.constructFailed model], false)
  else if env.avail model then
    ([Event.construct model, Event.probe model true, Event.setLlm model], true)
  else ([Event.construct model, Event.probe model false], false)

/-- The loop of `setup_lightweight_ollama` over a list of model names:
for each model, inside a `try`, construct it; on a raise continue with the
next model; if available, install it and return `True`; otherwise continue;
return `False` after the list is exhausted. -/
def runModels (env : LlmEnv) : List String → List Event × Bool
  | [] => ([], false)
  | m :: rest =>
    if env.raises m then
      let r := runModels env rest
      (Event.construct m :: Event.constructFailed m :: r.1, r.2)
    else if env.avail m then
      ([Event.construct m, Event.probe m true, Event.setLlm m], true)
    else
      let r := runModels env rest
      (Event.construct m :: Event.probe m false :: r.1, r.2)

/-- `setup_lightweight_ollama` from `simple_config.py`. -/
def setup_lightweight_ollama (env : LlmEnv) : List Event × Bool :=
  runModels env lightModels

/-- `setup_huggingface_lightweight` from `simple_config.py`. -/
def setup_huggingface_lightweight (env : LlmEnv) : List Event × Bool :=
  setupAttempt env hfModel

/-- `auto_setup` from `simple_config.py`: try Ollama first; only if that
returned `False`, try the Hugging Face backend; return `True` iff one of
the two succeeded. -/
def auto_setup (env : LlmEnv) : List Event × Bool :=
  let o := setup_lightweight_ollama env
  if o.2 then (o.1, true)
  else
    let h := setup_huggingface_lightweight env
    (o.1 ++ h.1, h.2)

/-! ## Trace observations -/

/-- The models passed to `ap.set_llm` in a trace. -/
def configured (tr : List Event) : List String :=
  tr.filterMap (fun e => match e with | Event.setLlm m => some m | _ => none)

/-- The models whose construction was attempted in a trace, in order. -/
def attempts (tr : List Event) : List String :=
  tr.filterMap (fun e => match e with | Event.construct m => some m | _ => none)

/-- Helper for `setLlmGuarded`: scan the trace remembering the previous
event; every `setLlm m` must be immediately preceded by `probe m true`. -/
def setLlmGuardedGo : Event → List Event → Bool
  | prev, Event.setLlm m :: rest =>
      decide (prev = Event.probe m true) && setLlmGuardedGo (Event.setLlm m) rest
  | _, e :: rest => setLlmGuardedGo e rest
  | _, [] => true

/-- A trace installs backends only after a positive probe: every
`setLlm m` event is immediately preceded by `probe m true`. -/
def setLlmGuarded : List Event → Bool
  | [] => true
  | Event.setLlm _ :: _ => false
  | e :: rest => setLlmGuardedGo e rest

/-! ## The eight scripts -/

/-- One identifier per source file of the repository. -/
inductive ScriptId where
  | complete_workflow_demo
  | comprehensive_test
  | demo
  | final_working_demo
  | simple_config
  | simple_demo
  | test_basic_functionality
  | working_demo
deriving DecidableEq

/-- All eight scripts. -/
def allScriptIds : List ScriptId :=
  [ScriptId.complete_workflow_demo, ScriptId.comprehensive_test, ScriptId.demo,
   ScriptId.final_working_demo, ScriptId.simple_config, ScriptId.simple_demo,
   ScriptId.test_basic_functionality, ScriptId.working_demo]

/-- The LLM-setup trace each script produces when run against `env`:
`simple_config.py` runs `auto_setup`; `demo.py` attempts the `mistral`
model in `setup_llm`; `simple_demo.py`, `complete_workflow_demo.py` and
`final_working_demo.py` attempt `phi3:mini`; `comprehensive_test.py`
attempts `mistral` in `test_ai_powered_queries`;
`working_demo.py` and `test_basic_functionality.py` never touch the LLM. -/
def scriptLlmTrace (env : LlmEnv) : ScriptId → List Event
  | ScriptId.simple_config => (auto_setup env).1
  | ScriptId.simple_demo => (setupAttempt env "phi3:mini").1
  | ScriptId.demo => (setupAttempt env "mistral").1
  | ScriptId.complete_workflow_demo => (setupAttempt env "phi3:mini").1
  | ScriptId.final_working_demo => (setupAttempt env "phi3:mini").1
  | ScriptId.comprehensive_test => (setupAttempt env "mistral").1
  | ScriptId.working_demo => []
  | ScriptId.test_basic_functionality => []

/-- Whether the script's LLM setup reports success against `env`
(`false` for the two scripts that perform no LLM setup). -/
def scriptSetupOk (env : LlmEnv) : ScriptId → Bool
  | ScriptId.simple_config => (auto_setup env).2
  | ScriptId.simple_demo => modelOk env "phi3:mini"
  | ScriptId.demo => modelOk env "mistral"
  | ScriptId.complete_workflow_demo => modelOk env "phi3:mini"
  | ScriptId.final_working_demo => modelOk env "phi3:mini"
  | ScriptId.comprehensive_test => modelOk env "mistral"
  | ScriptId.working_demo => false
  | ScriptId.test_basic_functionality => false

/-! ## Main control flow of each script -/

/-- Coarse-grained actions performed by the scripts' `main` functions,
one action per top-level section call. -/
inductive Act where
  | createData
  | manualAnalysis
  | basicAnalysis
  | dataframeMethods
  | qualityCleaning
  | statAnalysis
  | qualityAnalysis
  | perfAnalysis
  | vizCharts
  | basicOps
  | dataAnalysisAct
  | dataManip
  | utilityTests
  | utilitiesDemo
  | basicQueries
  | visualizations
  | advancedAnalysis
  | advancedFeatures
  | queryAnalysisDemo
  | configDemo
  | vizSetup
  | modelsDemo
  | multiDf
  | aiQueries
  | aiSkipped
  | printTips
  | printWarn
  | showConfig
  | manualSetupMsg
deriving DecidableEq

/-- Actions that perform and print manual (non-AI) dataframe analysis. -/
def isAnalysisAct : Act → Bool
  | Act.manualAnalysis => true
  | Act.basicAnalysis => true
  | Act.dataframeMethods => true
  | Act.qualityCleaning => true
  | Act.statAnalysis => true
  | Act.qualityAnalysis => true
  | Act.perfAnalysis => true
  | Act.basicOps => true
  | Act.dataAnalysisAct => true
  | Act.dataManip => true
  | Act.utilityTests => true
  | Act.utilitiesDemo => true
  | _ => false

/-- Some action of the run performs and prints dataframe analysis. -/
def performsAnalysis (acts : List Act) : Bool := acts.any isAnalysisAct

/-- The action sequence of each script's entry point when run against
`env`, following the source's `main` (or `__main__` block) line by line.
In particular: `simple_demo.main` always runs `show_manual_analysis`
first and only branches on the LLM afterwards; `demo.main` creates the
sample data, and when `setup_llm` fails it prints a warning and returns
without any analysis; `simple_config` only configures the LLM and shows
the configuration. -/
def mainActs (env : LlmEnv) : ScriptId → List Act
  | ScriptId.simple_demo =>
      Act.manualAnalysis ::
        (if modelOk env "phi3:mini" then [Act.aiQueries] else [Act.printTips])
  | ScriptId.demo =>
      Act.createData ::
        (if modelOk env "mistral" then
          [Act.basicQueries, Act.visualizations, Act.advancedAnalysis,
           Act.queryAnalysisDemo, Act.configDemo, Act.utilitiesDemo]
        else [Act.printWarn])
  | ScriptId.working_demo =>
      [Act.basicAnalysis, Act.dataframeMethods, Act.qualityCleaning, Act.vizSetup,
       Act.configDemo, Act.modelsDemo, Act.queryAnalysisDemo, Act.manualAnalysis]
  | ScriptId.complete_workflow_demo =>
      Act.basicAnalysis ::
        ((if modelOk env "phi3:mini" then [Act.basicAnalysis, Act.aiQueries]
          else [Act.aiSkipped]) ++
         [Act.advancedFeatures, Act.qualityCleaning, Act.vizSetup])
  | ScriptId.final_working_demo =>
      [Act.basicAnalysis, Act.dataframeMethods, Act.qualityCleaning, Act.vizSetup,
       Act.configDemo, Act.modelsDemo, Act.queryAnalysisDemo, Act.manualAnalysis,
       Act.multiDf] ++
        (if modelOk env "phi3:mini" then [Act.basicAnalysis, Act.aiQueries]
         else [Act.aiSkipped])
  | ScriptId.comprehensive_test =>
      [Act.createData, Act.basicAnalysis, Act.statAnalysis, Act.qualityAnalysis,
       Act.perfAnalysis, Act.vizCharts] ++
        (if modelOk env "mistral" then [Act.aiQueries] else [Act.aiSkipped]) ++
        [Act.queryAnalysisDemo, Act.configDemo, Act.utilityTests]
  | ScriptId.test_basic_functionality =>
      [Act.basicOps, Act.dataAnalysisAct, Act.dataManip, Act.utilityTests,
       Act.vizSetup]
  | ScriptId.simple_config =>
      if (auto_setup env).2 then [Act.showConfig] else [Act.manualSetupMsg]

/-- A concrete environment in which every backend construction succeeds
but every availability probe answers false: the local model server is
down. -/
def envDown : LlmEnv := ⟨fun _ => false, fun _ => false⟩

/-- The scripts that do not fall back to a manual analysis path when the
LLM is unavailable: `demo.py` returns from `main` right after the failed
setup, and `simple_config.py` performs no dataframe analysis at all. -/
def lacksManualFallback : ScriptId → Bool
  | ScriptId.demo => true
  | ScriptId.simple_config => true
  | _ => false

/-! ## Static inventory of the scripts -/

/-- A use of askpandas functionality: the enclosing top-level function of
the script, the askpandas symbol or adapter method called, and whether an
exception raised at this site is caught (and printed) by a `try/except`
handler inside the script, either locally or because every call path from
the script's entry point to this site passes through one. -/
structure CallSite where
  enclosingFn : String
  callee : String
  caught : Bool
deriving DecidableEq

/-- A chat-query call site: the enclosing function, a representative
free-text question submitted there, how many dataframes are passed as
extra arguments to `ap.chat`, whether the receiver of the call is a
dataframe adapter (`df.chat(...)`), and whether the result is printed. -/
structure ChatCall where
  enclosingFn : String
  question : String
  dfArgs : Nat
  receiverIsDf : Bool
  printed : Bool
deriving DecidableEq

/-- The static inventory of one script: its imports (module names), its
`from askpandas...` import modules, its top-level function and class
definitions, the functions that build an in-memory sample dataset, every
askpandas call site, every chat call, the library calls whose results are
printed, and the CSV files written and read. -/
structure Script where
  name : String
  imports : List String
  apFromImports : List String
  localDefs : List String
  classDefs : List String
  sampleDataDefs : List String
  apCallSites : List CallSite
  chatCalls : List ChatCall
  printedLibCalls : List String
  csvWrites : List String
  csvReads : List String

/-- Inventory of `complete_workflow_demo.py`. -/
def complete_workflow_demo_py : Script :=
  ⟨"complete_workflow_demo.py",
   ["askpandas", "pandas", "numpy", "datetime", "random"],
   [],
   ["create_comprehensive_sample_data", "demo_basic_analysis",
    "demo_ai_powered_queries", "demo_advanced_features",
    "demo_data_quality_and_cleaning", "demo_visualization_setup", "main"],
   [],
   ["create_comprehensive_sample_data"],
   [⟨"demo_basic_analysis", "DataFrame", true⟩,
    ⟨"demo_basic_analysis", "head", true⟩,
    ⟨"demo_basic_analysis", "sum", true⟩,
    ⟨"demo_basic_analysis", "mean", true⟩,
    ⟨"demo_ai_powered_queries", "OllamaLLM", true⟩,
    ⟨"demo_ai_powered_queries", "is_available", true⟩,
    ⟨"demo_ai_powered_queries", "set_llm", true⟩,
    ⟨"demo_ai_powered_queries", "chat", true⟩,
    ⟨"demo_advanced_features", "set_config", true⟩,
    ⟨"demo_advanced_features", "get_config", true⟩,
    ⟨"demo_advanced_features", "analyze_query", true⟩,
    ⟨"demo_advanced_features", "get_available_models", true⟩,
    ⟨"demo_data_quality_and_cleaning", "DataFrame", true⟩,
    ⟨"demo_data_quality_and_cleaning", "clean_columns", true⟩,
    ⟨"demo_data_quality_and_cleaning", "head", true⟩,
    ⟨"demo_data_quality_and_cleaning", "get_summary_stats", true⟩,
    ⟨"demo_visualization_setup", "set_config", true⟩],
   [⟨"demo_ai_powered_queries", "Show customer distribution by segment", 0, true, true⟩,
    ⟨"demo_ai_powered_queries", "What is the total revenue?", 0, true, true⟩],
   ["head", "chat", "get_config", "analyze_query", "get_available_models",
    "get_summary_stats"],
   [],
   []⟩

/-- Inventory of `comprehensive_test.py`. -/
def comprehensive_test_py : Script :=
  ⟨"comprehensive_test.py",
   ["askpandas", "pandas", "numpy", "datetime", "random", "warnings"],
   ["askpandas.utils.statistical", "askpandas.utils.data_quality",
    "askpandas.utils.performance", "askpandas.visualization.charts"],
   ["create_comprehensive_sample_data", "test_basic_functionality",
    "test_advanced_statistical_analysis", "test_data_quality_analysis",
    "test_performance_optimization", "test_advanced_visualizations",
    "test_ai_powered_queries", "test_query_analysis_and_validation",
    "test_configuration_management", "test_utilities_and_helpers", "main"],
   [],
   ["create_comprehensive_sample_data"],
   [⟨"test_basic_functionality", "DataFrame", true⟩,
    ⟨"test_basic_functionality", "info", true⟩,
    ⟨"test_basic_functionality", "describe", true⟩,
    ⟨"test_advanced_statistical_analysis", "StatisticalAnalyzer", true⟩,
    ⟨"test_advanced_statistical_analysis", "descriptive_statistics", true⟩,
    ⟨"test_advanced_statistical_analysis", "correlation_analysis", true⟩,
    ⟨"test_advanced_statistical_analysis", "outlier_detection", true⟩,
    ⟨"test_advanced_statistical_analysis", "normality_tests", true⟩,
    ⟨"test_advanced_statistical_analysis", "hypothesis_testing", true⟩,
    ⟨"test_advanced_statistical_analysis", "generate_statistical_report", true⟩,
    ⟨"test_data_quality_analysis", "DataQualityAnalyzer", true⟩,
    ⟨"test_data_quality_analysis", "comprehensive_quality_assessment", true⟩,
    ⟨"test_data_quality_analysis", "generate_quality_report", true⟩,
    ⟨"test_data_quality_analysis", "DataCleaner", true⟩,
    ⟨"test_data_quality_analysis", "auto_clean", true⟩,
    ⟨"test_data_quality_analysis", "get_cleaning_log", true⟩,
    ⟨"test_performance_optimization", "PerformanceOptimizer", true⟩,
    ⟨"test_performance_optimization", "analyze_dataframe_performance", true⟩,
    ⟨"test_performance_optimization", "PerformanceBenchmark", true⟩,
    ⟨"test_performance_optimization", "benchmark_dataframe_operations", true⟩,
    ⟨"test_performance_optimization", "get_benchmark_summary", true⟩,
    ⟨"test_advanced_visualizations", "create_bar_chart", true⟩,
    ⟨"test_advanced_visualizations", "create_histogram", true⟩,
    ⟨"test_advanced_visualizations", "create_scatter_plot", true⟩,
    ⟨"test_advanced_visualizations", "create_box_plot", true⟩,
    ⟨"test_advanced_visualizations", "create_correlation_heatmap", true⟩,
    ⟨"test_ai_powered_queries", "OllamaLLM", true⟩,
    ⟨"test_ai_powered_queries", "is_available", true⟩,
    ⟨"test_ai_powered_queries", "set_llm", true⟩,
    ⟨"test_ai_powered_queries", "chat", true⟩,
    ⟨"test_query_analysis_and_validation", "analyze_query", true⟩,
    ⟨"test_query_analysis_and_validation", "validate_query", true⟩,
    ⟨"test_query_analysis_and_validation", "get_query_examples", true⟩,
    ⟨"test_configuration_management", "get_config", true⟩,
    ⟨"test_configuration_management", "set_config", true⟩,
    ⟨"test_utilities_and_helpers", "validate_dataframe", true⟩,
    ⟨"test_utilities_and_helpers", "get_dataframe_summary", true⟩,
    ⟨"test_utilities_and_helpers", "format_number", true⟩,
    ⟨"test_utilities_and_helpers", "detect_data_types", true⟩,
    ⟨"test_utilities_and_helpers", "clean_column_names", true⟩,
    ⟨"test_utilities_and_helpers", "get_memory_usage_mb", true⟩,
    ⟨"main", "get_performance_summary", true⟩],
   [⟨"test_ai_powered_queries", "What is the average income by region?", 0, true, true⟩],
   ["info", "describe", "descriptive_statistics",
    "comprehensive_quality_assessment", "chat", "analyze_query", "get_config",
    "format_number"],
   ["comprehensive_sample.csv"],
   ["comprehensive_sample.csv"]⟩

/-- Inventory of `demo.py`.  `create_sample_data` and `setup_llm` run
before `main` enters its `try`, but the askpandas calls of `setup_llm`
are caught by its local handler; all other askpandas call sites execute
under `main`'s `try/except`. -/
def demo_py : Script :=
  ⟨"demo.py",
   ["askpandas", "pandas", "numpy", "datetime", "random"],
   [],
   ["create_sample_data", "setup_llm", "demo_basic_queries",
    "demo_visualizations", "demo_advanced_analysis", "demo_query_analysis",
    "demo_configuration", "demo_utilities", "main"],
   [],
   ["create_sample_data"],
   [⟨"setup_llm", "OllamaLLM", true⟩,
    ⟨"setup_llm", "is_available", true⟩,
    ⟨"setup_llm", "set_llm", true⟩,
    ⟨"demo_basic_queries", "DataFrame", true⟩,
    ⟨"demo_basic_queries", "info", true⟩,
    ⟨"demo_basic_queries", "chat", true⟩,
    ⟨"demo_visualizations", "DataFrame", true⟩,
    ⟨"demo_visualizations", "chat", true⟩,
    ⟨"demo_advanced_analysis", "DataFrame", true⟩,
    ⟨"demo_advanced_analysis", "chat", true⟩,
    ⟨"demo_query_analysis", "analyze_query", true⟩,
    ⟨"demo_query_analysis", "get_query_examples", true⟩,
    ⟨"demo_configuration", "get_config", true⟩,
    ⟨"demo_configuration", "set_config", true⟩,
    ⟨"demo_utilities", "DataFrame", true⟩,
    ⟨"demo_utilities", "get_summary_stats", true⟩,
    ⟨"demo_utilities", "get_column_info", true⟩,
    ⟨"demo_utilities", "clean_columns", true⟩],
   [⟨"demo_basic_queries", "What is the total revenue?", 2, false, true⟩,
    ⟨"demo_visualizations", "Create a bar chart showing total revenue by region", 1, false, true⟩,
    ⟨"demo_advanced_analysis", "Find any outliers in the price data", 2, false, true⟩],
   ["info", "chat", "analyze_query", "get_query_examples", "get_config",
    "get_summary_stats", "get_column_info"],
   ["demo_sales.csv", "demo_customers.csv"],
   ["demo_sales.csv", "demo_customers.csv"]⟩

/-- Inventory of `final_working_demo.py`. -/
def final_working_demo_py : Script :=
  ⟨"final_working_demo.py",
   ["askpandas", "pandas", "numpy", "datetime", "random"],
   [],
   ["create_comprehensive_sample_data", "demo_basic_analysis",
    "demo_dataframe_methods", "demo_data_quality_and_cleaning",
    "demo_visualization_setup", "demo_configuration", "demo_available_models",
    "demo_query_analysis", "demo_ai_powered_queries", "demo_manual_analysis",
    "demo_multi_dataframe_analysis", "main"],
   [],
   ["create_comprehensive_sample_data"],
   [⟨"demo_basic_analysis", "DataFrame", true⟩,
    ⟨"demo_basic_analysis", "head", true⟩,
    ⟨"demo_basic_analysis", "sum", true⟩,
    ⟨"demo_basic_analysis", "mean", true⟩,
    ⟨"demo_dataframe_methods", "info", true⟩,
    ⟨"demo_dataframe_methods", "describe", true⟩,
    ⟨"demo_dataframe_methods", "shape", true⟩,
    ⟨"demo_dataframe_methods", "columns", true⟩,
    ⟨"demo_dataframe_methods", "dtypes", true⟩,
    ⟨"demo_dataframe_methods", "isnull", true⟩,
    ⟨"demo_data_quality_and_cleaning", "DataFrame", true⟩,
    ⟨"demo_data_quality_and_cleaning", "clean_columns", true⟩,
    ⟨"demo_data_quality_and_cleaning", "head", true⟩,
    ⟨"demo_data_quality_and_cleaning", "get_summary_stats", true⟩,
    ⟨"demo_visualization_setup", "set_config", true⟩,
    ⟨"demo_configuration", "set_config", true⟩,
    ⟨"demo_configuration", "get_config", true⟩,
    ⟨"demo_available_models", "get_available_models", true⟩,
    ⟨"demo_query_analysis", "analyze_query", true⟩,
    ⟨"demo_ai_powered_queries", "OllamaLLM", true⟩,
    ⟨"demo_ai_powered_queries", "is_available", true⟩,
    ⟨"demo_ai_powered_queries", "set_llm", true⟩,
    ⟨"demo_ai_powered_queries", "chat", true⟩,
    ⟨"demo_manual_analysis", "sum", true⟩,
    ⟨"demo_manual_analysis", "mean", true⟩,
    ⟨"demo_manual_analysis", "groupby", true⟩,
    ⟨"demo_manual_analysis", "sort_values", true⟩,
    ⟨"demo_multi_dataframe_analysis", "DataFrame", true⟩,
    ⟨"demo_multi_dataframe_analysis", "shape", true⟩,
    ⟨"demo_multi_dataframe_analysis", "columns", true⟩,
    ⟨"demo_multi_dataframe_analysis", "groupby", true⟩],
   [⟨"demo_ai_powered_queries", "What is the total revenue?", 0, true, true⟩],
   ["head", "info", "describe", "get_summary_stats", "get_config",
    "get_available_models", "analyze_query", "chat"],
   [],
   []⟩

/-- Inventory of `simple_config.py`: it builds no dataset and never
constructs a dataframe adapter; its one unguarded askpandas call is
`ap.get_config()` in `show_current_config`, which runs from the
`__main__` block outside any `try`. -/
def simple_config_py : Script :=
  ⟨"simple_config.py",
   ["askpandas"],
   [],
   ["setup_lightweight_ollama", "setup_huggingface_lightweight", "auto_setup",
    "show_current_config"],
   [],
   [],
   [⟨"setup_lightweight_ollama", "OllamaLLM", true⟩,
    ⟨"setup_lightweight_ollama", "is_available", true⟩,
    ⟨"setup_lightweight_ollama", "set_llm", true⟩,
    ⟨"setup_huggingface_lightweight", "HuggingFaceLLM", true⟩,
    ⟨"setup_huggingface_lightweight", "is_available", true⟩,
    ⟨"setup_huggingface_lightweight", "set_llm", true⟩,
    ⟨"show_current_config", "get_config", false⟩],
   [],
   ["get_config"],
   [],
   []⟩

/-- Inventory of `simple_demo.py`: `main` has no `try/except`, so the
adapter constructions and method calls of `demo_simple_queries` and
`show_manual_analysis` are not protected by any handler; only the calls
inside `setup_simple_llm` and the `ap.chat` call have local handlers. -/
def simple_demo_py : Script :=
  ⟨"simple_demo.py",
   ["askpandas", "pandas", "numpy"],
   [],
   ["create_simple_data", "setup_simple_llm", "demo_simple_queries",
    "show_manual_analysis", "main"],
   [],
   ["create_simple_data"],
   [⟨"setup_simple_llm", "OllamaLLM", true⟩,
    ⟨"setup_simple_llm", "is_available", true⟩,
    ⟨"setup_simple_llm", "set_llm", true⟩,
    ⟨"demo_simple_queries", "DataFrame", false⟩,
    ⟨"demo_simple_queries", "head", false⟩,
    ⟨"demo_simple_queries", "chat", true⟩,
    ⟨"show_manual_analysis", "DataFrame", false⟩,
    ⟨"show_manual_analysis", "sum", false⟩,
    ⟨"show_manual_analysis", "mean", false⟩,
    ⟨"show_manual_analysis", "sort_values", false⟩,
    ⟨"show_manual_analysis", "groupby", false⟩],
   [⟨"demo_simple_queries", "What is the total revenue?", 1, false, true⟩],
   ["head", "chat", "sum", "mean", "groupby"],
   [],
   []⟩

/-- Inventory of `test_basic_functionality.py`. -/
def test_basic_functionality_py : Script :=
  ⟨"test_basic_functionality.py",
   ["askpandas", "pandas", "numpy"],
   [],
   ["test_basic_dataframe_operations", "test_data_analysis",
    "test_data_manipulation", "test_utility_functions",
    "test_visualization_setup", "main"],
   [],
   ["test_utility_functions"],
   [⟨"test_basic_dataframe_operations", "DataFrame", true⟩,
    ⟨"test_basic_dataframe_operations", "info", true⟩,
    ⟨"test_basic_dataframe_operations", "shape", true⟩,
    ⟨"test_basic_dataframe_operations", "columns", true⟩,
    ⟨"test_basic_dataframe_operations", "head", true⟩,
    ⟨"test_basic_dataframe_operations", "tail", true⟩,
    ⟨"test_basic_dataframe_operations", "dtypes", true⟩,
    ⟨"test_data_analysis", "DataFrame", true⟩,
    ⟨"test_data_analysis", "describe", true⟩,
    ⟨"test_data_analysis", "get_summary_stats", true⟩,
    ⟨"test_data_analysis", "get_column_info", true⟩,
    ⟨"test_data_manipulation", "DataFrame", true⟩,
    ⟨"test_data_manipulation", "query", true⟩,
    ⟨"test_data_manipulation", "sort_values", true⟩,
    ⟨"test_data_manipulation", "groupby", true⟩,
    ⟨"test_data_manipulation", "agg", true⟩,
    ⟨"test_utility_functions", "DataFrame", true⟩,
    ⟨"test_utility_functions", "clean_columns", true⟩,
    ⟨"test_visualization_setup", "get_config", true⟩,
    ⟨"test_visualization_setup", "set_config", true⟩,
    ⟨"test_visualization_setup", "get_available_models", true⟩],
   [],
   ["info", "head", "tail", "describe", "get_summary_stats",
    "get_column_info", "sort_values", "groupby", "get_config",
    "get_available_models"],
   [],
   ["demo_sales.csv", "demo_customers.csv"]⟩

/-- Inventory of `working_demo.py`. -/
def working_demo_py : Script :=
  ⟨"working_demo.py",
   ["askpandas", "pandas", "numpy", "datetime", "random"],
   [],
   ["create_comprehensive_sample_data", "demo_basic_analysis",
    "demo_dataframe_methods", "demo_data_quality_and_cleaning",
    "demo_visualization_setup", "demo_configuration", "demo_available_models",
    "demo_query_analysis", "demo_manual_analysis", "main"],
   [],
   ["create_comprehensive_sample_data"],
   [⟨"demo_basic_analysis", "DataFrame", true⟩,
    ⟨"demo_basic_analysis", "head", true⟩,
    ⟨"demo_basic_analysis", "sum", true⟩,
    ⟨"demo_basic_analysis", "mean", true⟩,
    ⟨"demo_dataframe_methods", "info", true⟩,
    ⟨"demo_dataframe_methods", "describe", true⟩,
    ⟨"demo_dataframe_methods", "shape", true⟩,
    ⟨"demo_dataframe_methods", "columns", true⟩,
    ⟨"demo_dataframe_methods", "dtypes", true⟩,
    ⟨"demo_dataframe_methods", "isnull", true⟩,
    ⟨"demo_data_quality_and_cleaning", "DataFrame", true⟩,
    ⟨"demo_data_quality_and_cleaning", "clean_columns", true⟩,
    ⟨"demo_data_quality_and_cleaning", "head", true⟩,
    ⟨"demo_data_quality_and_cleaning", "get_summary_stats", true⟩,
    ⟨"demo_visualization_setup", "set_config", true⟩,
    ⟨"demo_configuration", "set_config", true⟩,
    ⟨"demo_configuration", "get_config", true⟩,
    ⟨"demo_available_models", "get_available_models", true⟩,
    ⟨"demo_query_analysis", "analyze_query", true⟩,
    ⟨"demo_manual_analysis", "sum", true⟩,
    ⟨"demo_manual_analysis", "mean", true⟩,
    ⟨"demo_manual_analysis", "groupby", true⟩,
    ⟨"demo_manual_analysis", "sort_values", true⟩],
   [],
   ["head", "info", "describe", "get_summary_stats", "get_config",
    "get_available_models", "analyze_query"],
   [],
   []⟩

/-- All eight script inventories. -/
def scripts : List Script :=
  [complete_workflow_demo_py, comprehensive_test_py, demo_py,
   final_working_demo_py, simple_config_py, simple_demo_py,
   test_basic_functionality_py, working_demo_py]

/-! ## Derived inventory predicates -/

/-- The script builds at least one in-memory sample dataset. -/
def buildsSampleDataset (s : Script) : Bool := !s.sampleDataDefs.isEmpty

/-- The script wraps a dataset in the dataframe adapter `ap.DataFrame`. -/
def wrapsAdapter (s : Script) : Bool :=
  s.apCallSites.any (fun c => c.callee == "DataFrame")

/-- The script prints the result of at least one library call. -/
def printsLibResults (s : Script) : Bool := !s.printedLibCalls.isEmpty

/-- The enclosing function is one of the demo or test functions (its name
begins with "demo" or with "test"). -/
def isDemoOrTestFn (fn : String) : Bool :=
  fn.toList.take 4 == ['d', 'e', 'm', 'o'] || fn.toList.take 4 == ['t', 'e', 's', 't']

/-- Claim C1 as stated: every script builds sample data, wraps it in the
adapter and prints library results. -/
def claimC1Holds : Bool :=
  scripts.all (fun s => buildsSampleDataset s && wrapsAdapter s && printsLibResults s)

/-- Claim C5 as stated (consequent): every askpandas call inside a demo
or test function is caught by a handler inside its script. -/
def claimC5Holds : Bool :=
  scripts.all (fun s =>
    s.apCallSites.all (fun c => !isDemoOrTestFn c.enclosingFn || c.caught))

/-- Claim C6 as stated: no script writes files to disk. -/
def claimC6Holds : Bool := scripts.all (fun s => s.csvWrites.isEmpty)

/-- The `from askpandas...` modules that appear in the scripts; all of
them are submodules of the external askpandas package. -/
def allowedApModules : List String :=
  ["askpandas.utils.statistical", "askpandas.utils.data_quality",
   "askpandas.utils.performance", "askpandas.visualization.charts"]

/-! ## File-existence semantics of test_basic_functionality.py -/

/-- One CSV-backed adapter construction performed by
`test_basic_functionality.py`, with the flag saying whether that call
site sits inside a local `try/except` of its own (so a raise there does
not abort the run). -/
structure FileRead where
  path : String
  locallyCaught : Bool
deriving DecidableEq

/-- The CSV reads `test_basic_functionality.py` performs, in execution
order: `test_basic_dataframe_operations` loads `demo_sales.csv` and
`demo_customers.csv`; `test_data_analysis` and `test_data_manipulation`
reload `demo_sales.csv`; `test_utility_functions` reloads it inside a
local `try`. -/
def test_basic_reads : List FileRead :=
  [⟨"demo_sales.csv", false⟩,
   ⟨"demo_customers.csv", false⟩,
   ⟨"demo_sales.csv", false⟩,
   ⟨"demo_sales.csv", false⟩,
   ⟨"demo_sales.csv", true⟩]

/-- Outcome of a run of `main`: it finished normally, or an exception
reached the top-level handler, which caught and printed it. -/
inductive RunOutcome where
  | completed
  | caughtPrinted (path : String)
deriving DecidableEq

/-- Execute the reads in order over a file system `fs` (the list of
existing files): a missing file raises; a locally caught raise lets the
run continue; an uncaught raise aborts to `main`'s handler. -/
def runReads (fs : List String) : List FileRead → RunOutcome
  | [] => RunOutcome.completed
  | r :: rest =>
    if fs.contains r.path then runReads fs rest
    else if r.locallyCaught then runReads fs rest
    else RunOutcome.caughtPrinted r.path

/-- `main` of `test_basic_functionality.py` over file system `fs`. -/
def test_basic_main (fs : List String) : RunOutcome := runReads fs test_basic_reads

/-- The files present after `demo.py`'s `create_sample_data` has run:
it writes `demo_sales.csv` and `demo_customers.csv`. -/
def create_sample_data_files (fs : List String) : List String :=
  fs ++ ["demo_sales.csv", "demo_customers.csv"]

/-! ## The revenue column of the sample-data constructors -/

/-- A row of the sales tables the scripts build, restricted to the
columns the revenue computation touches (prices are exact two-decimal
values, embedded as rationals). -/
structure SalesRow where
  product : String
  region : String
  price : ℚ
  quantity : ℕ

/-- Adding the revenue column as `df["price"] * df["quantity"]`,
the order used by `create_simple_data` in `simple_demo.py`. -/
def withRevenuePQ (rows : List SalesRow) : List (SalesRow × ℚ) :=
  rows.map (fun r => (r, r.price * (r.quantity : ℚ)))

/-- Adding the revenue column as `df["quantity"] * df["price"]`, the
order used by `create_sample_data` in `demo.py` and by
`create_comprehensive_sample_data` in `working_demo.py`,
`complete_workflow_demo.py` and `final_working_demo.py`. -/
def withRevenueQP (rows : List SalesRow) : List (SalesRow × ℚ) :=
  rows.map (fun r => (r, (r.quantity : ℚ) * r.price))

/-- The revenue column of a table with the revenue column attached. -/
def revenueColumn (l : List (SalesRow × ℚ)) : List ℚ := l.map Prod.snd

/-- `df["revenue"].sum()`, the printed total revenue. -/
def totalRevenue (l : List (SalesRow × ℚ)) : ℚ := (revenueColumn l).sum

/-- `df["revenue"].mean()`, the printed average order value. -/
def avgOrderValue (l : List (SalesRow × ℚ)) : ℚ :=
  totalRevenue l / (l.length : ℚ)

/-- The literal rows of `create_simple_data` in `simple_demo.py`. -/
def simple_demo_rows : List SalesRow :=
  [⟨"Apple", "North", 2.5, 100⟩,
   ⟨"Banana", "South", 1, 200⟩,
   ⟨"Orange", "North", 1.5, 150⟩,
   ⟨"Grape", "South", 3, 50⟩,
   ⟨"Mango", "North", 2, 120⟩]

/-- `create_simple_data` from `simple_demo.py`: the literal table plus
the revenue column `price * quantity`. -/
def create_simple_data : List (SalesRow × ℚ) := withRevenuePQ simple_demo_rows

/-- The random draws the generating scripts consume: the product, region,
quantity and price chosen for the i-th record. -/
structure SalesEnv where
  product : ℕ → String
  region : ℕ → String
  quantity : ℕ → ℕ
  price : ℕ → ℚ

/-- The `n` generated rows of a sample-data loop. -/
def sampleRows (env : SalesEnv) (n : ℕ) : List SalesRow :=
  (List.range n).map (fun i => ⟨env.product i, env.region i, env.price i, env.quantity i⟩)

/-- `create_sample_data` from `demo.py`: 100 generated rows plus the
revenue column `quantity * price`. -/
def create_sample_data (env : SalesEnv) : List (SalesRow × ℚ) :=
  withRevenueQP (sampleRows env 100)

/-- `create_comprehensive_sample_data` from `working_demo.py`,
`complete_workflow_demo.py` and `final_working_demo.py`: 50 generated
rows plus the revenue column `quantity * price`. -/
def create_comprehensive_sample_data (env : SalesEnv) : List (SalesRow × ℚ) :=
  withRevenueQP (sampleRows env 50)

/-! ## Lemmas about guarded traces -/

lemma setLlmGuardedGo_setupAttempt (env : LlmEnv) (m : String) (prev : Event) :
    setLlmGuardedGo prev (setupAttempt env m).1 = true := by
  unfold setupAttempt
  split_ifs <;> simp [setLlmGuardedGo]

lemma setLlmGuardedGo_runModels (env : LlmEnv) (ms : List String) (t : List Event)
    (ht : ∀ p, setLlmGuardedGo p t = true) :
    ∀ prev, setLlmGuardedGo prev ((runModels env ms).1 ++ t) = true := by
  induction ms with
  | nil => intro prev; simpa [runModels] using ht prev
  | cons m rest ih =>
    intro prev
    unfold runModels
    split_ifs with h1 h2 <;> simp [setLlmGuardedGo]
    · exact ih _
    · exact ht _
    · exact ih _

lemma setLlmGuarded_of_go (l : List Event)
    (h : ∀ prev, setLlmGuardedGo prev l = true) : setLlmGuarded l = true := by
  match l with
  | [] => rfl
  | Event.setLlm m :: rest =>
    have := h (Event.construct "")
    simp [setLlmGuardedGo] at this
  | Event.construct m :: rest => simpa [setLlmGuarded] using h (Event.construct m)
  | Event.constructFailed m :: rest =>
    simpa [setLlmGuarded] using h (Event.constructFailed m)
  | Event.probe m b :: rest => simpa [setLlmGuarded] using h (Event.probe m b)

lemma setLlmGuarded_setupAttempt (env : LlmEnv) (m : String) :
    setLlmGuarded (setupAttempt env m).1 = true :=
  setLlmGuarded_of_go _ (fun _ => setLlmGuardedGo_setupAttempt env m _)

lemma setLlmGuardedGo_runModels_nil (env : LlmEnv) (ms : List String) (prev : Event) :
    setLlmGuardedGo prev (runModels env ms).1 = true := by
  have := setLlmGuardedGo_runModels env ms [] (fun _ => rfl) prev
  simpa using this

lemma setLlmGuarded_auto_setup (env : LlmEnv) :
    setLlmGuarded (auto_setup env).1 = true := by
  apply setLlmGuarded_of_go
  intro prev
  by_cases ho : (runModels env lightModels).2 = true <;>
    simp [auto_setup, setup_lightweight_ollama, setup_huggingface_lightweight, ho]
  · exact setLlmGuardedGo_runModels_nil env lightModels prev
  · exact setLlmGuardedGo_runModels env lightModels _
      (fun _ => setLlmGuardedGo_setupAttempt env hfModel _) prev

/-! ## Lemmas characterizing the `simple_config.py` setup loop -/

lemma runModels_snd (env : LlmEnv) (ms : List String) :
    (runModels env ms).2 = ms.any (modelOk env) := by
  induction ms with
  | nil => rfl
  | cons m rest ih =>
    unfold runModels
    rcases h1 : env.raises m <;> rcases h2 : env.avail m <;>
      simp [modelOk, h1, h2, ih]

lemma configured_runModels (env : LlmEnv) (ms : List String) :
    configured (runModels env ms).1 = (ms.find? (modelOk env)).toList := by
  induction ms with
  | nil => rfl
  | cons m rest ih =>
    unfold runModels
    rcases h1 : env.raises m <;> rcases h2 : env.avail m <;>
      simp [modelOk, configured, h1, h2, List.find?, ← ih, List.filterMap_cons]

lemma attempts_runModels (env : LlmEnv) (ms : List String) :
    attempts (runModels env ms).1 =
      ms.takeWhile (fun m => !modelOk env m) ++ (ms.find? (modelOk env)).toList := by
  induction ms with
  | nil => rfl
  | cons m rest ih =>
    unfold runModels
    rcases h1 : env.raises m
    · rcases h2 : env.avail m
      · have hm : modelOk env m = false := by simp [modelOk, h1, h2]
        simp [attempts, List.filterMap_cons, List.takeWhile_cons, List.find?_cons,
          hm, h1, h2]
        exact ih
      · have hm : modelOk env m = true := by simp [modelOk, h1, h2]
        simp [attempts, List.filterMap_cons, List.takeWhile_cons, List.find?_cons,
          hm, h1, h2]
    · have hm : modelOk env m = false := by simp [modelOk, h1]
      simp [attempts, List.filterMap_cons, List.takeWhile_cons, List.find?_cons,
        hm, h1]
      exact ih

lemma attempts_runModels_subset (env : LlmEnv) (ms : List String) (x : String)
    (hx : x ∈ attempts (runModels env ms).1) : x ∈ ms := by
  rw [attempts_runModels] at hx
  rcases List.mem_append.1 hx with h | h
  · exact (List.takeWhile_prefix _).subset h
  · rcases hf : ms.find? (modelOk env) with _ | m
    · simp [hf] at h
    · simp [hf] at h
      exact h ▸ List.mem_of_find?_eq_some hf

lemma attempts_append (xs ys : List Event) :
    attempts (xs ++ ys) = attempts xs ++ attempts ys := by
  simp [attempts, List.filterMap_append]

lemma attempts_setupAttempt (env : LlmEnv) (m : String) :
    attempts (setupAttempt env m).1 = [m] := by
  unfold setupAttempt
  split_ifs <;> simp [attempts]

lemma hfModel_not_mem_lightModels : hfModel ∉ lightModels := by decide

/-! ## Lemmas about the revenue column -/

lemma revenueColumn_withRevenuePQ (rows : List SalesRow) :
    revenueColumn (withRevenuePQ rows) = rows.map (fun r => r.price * (r.quantity : ℚ)) := by
  simp [revenueColumn, withRevenuePQ, List.map_map, Function.comp]

lemma revenueColumn_withRevenueQP (rows : List SalesRow) :
    revenueColumn (withRevenueQP rows) = rows.map (fun r => r.price * (r.quantity : ℚ)) := by
  simp [revenueColumn, withRevenueQP, List.map_map, Function.comp, mul_comm]

lemma totalRevenue_withRevenuePQ (rows : List SalesRow) :
    totalRevenue (withRevenuePQ rows) = (rows.map (fun r => r.price * (r.quantity : ℚ))).sum := by
  simp [totalRevenue, revenueColumn_withRevenuePQ]

lemma totalRevenue_withRevenueQP (rows : List SalesRow) :
    totalRevenue (withRevenueQP rows) = (rows.map (fun r => r.price * (r.quantity : ℚ))).sum := by
  simp [totalRevenue, revenueColumn_withRevenueQP]

lemma length_withRevenueQP (rows : List SalesRow) :
    (withRevenueQP rows).length = rows.length := by
  simp [withRevenueQP]

lemma avgOrderValue_withRevenueQP (rows : List SalesRow) :
    avgOrderValue (withRevenueQP rows) =
      (rows.map (fun r => r.price * (r.quantity : ℚ))).sum / (rows.length : ℚ) := by
  simp [avgOrderValue, totalRevenue_withRevenueQP, length_withRevenueQP]

lemma length_sampleRows (env : SalesEnv) (n : ℕ) : (sampleRows env n).length = n := by
  simp [sampleRows]

/-! ## The claims -/

/-- Claim C1, counterexample: it is not the case that every source file
instantiates a sample dataset, wraps it in the dataframe adapter and
prints library results — `simple_config.py` builds no sample dataset and
never constructs an `ap.DataFrame`. -/
theorem C1_counterexample :
    claimC1Holds = false ∧ simple_config_py.sampleDataDefs = [] ∧
      wrapsAdapter simple_config_py = false := by
  refine ⟨by decide, rfl, by decide⟩

/-- Claim C1, amended: every source file except `simple_config.py`
instantiates at least one sample dataset, wraps it in the dataframe
adapter `ap.DataFrame`, and prints the results of calling
library-provided methods; `simple_config.py` only configures the LLM
backend and prints the configuration. -/
theorem C1_amended :
    (scripts.filter (fun s => !(s.name == "simple_config.py"))).all
      (fun s => buildsSampleDataset s && wrapsAdapter s && printsLibResults s) = true := by
  decide

/-- Claim C2: in every script and against every environment, the LLM
trace installs a backend via `ap.set_llm` only immediately after the
`is_available()` probe of that same backend returned true; no script
installs a backend without first probing it. -/
theorem C2_set_llm_only_after_positive_probe (env : LlmEnv) (sid : ScriptId) :
    setLlmGuarded (scriptLlmTrace env sid) = true := by
  cases sid <;>
    first
      | exact setLlmGuarded_setupAttempt env _
      | exact setLlmGuarded_auto_setup env
      | rfl

/-- Claim C3, counterexample: with the model server down, `demo.py`'s
setup fails and its run performs no dataframe analysis at all — `main`
prints a warning and returns, so the script does not fall back to a
manual analysis path. -/
theorem C3_counterexample :
    scriptSetupOk envDown ScriptId.demo = false ∧
      performsAnalysis (mainActs envDown ScriptId.demo) = false := by
  exact ⟨rfl, rfl⟩

/-- Claim C3, amended: in every script except `demo.py` and
`simple_config.py`, the run performs and prints manual dataframe
analysis even when the LLM setup fails; `demo.py` instead returns from
`main` right after the failed setup, and `simple_config.py` has no
analysis path at all. -/
theorem C3_amended (env : LlmEnv) :
    (allScriptIds.filter (fun s => !lacksManualFallback s)).all
      (fun s => scriptSetupOk env s || performsAnalysis (mainActs env s)) = true := by
  simp [allScriptIds, lacksManualFallback, mainActs, performsAnalysis, isAnalysisAct]

/-- Claim C4: every script imports the external `askpandas` package, no
script defines a class, every `from askpandas...` import is a submodule
of the external package, and no locally defined function has the name of
any askpandas symbol the scripts use — the library internals (query
planning, prompt construction, code generation) are not defined in this
source set. -/
theorem C4_library_logic_external_only :
    (scripts.all (fun s => s.imports.contains "askpandas")
      && scripts.all (fun s => s.classDefs.isEmpty)
      && scripts.all (fun s => s.apFromImports.all (fun m => allowedApModules.contains m))
      && scripts.all (fun s => s.localDefs.all (fun d =>
            !(scripts.any (fun t => t.apCallSites.any (fun c => c.callee == d)))))) = true := by
  decide

/-- Claim C5, counterexample: not every askpandas call inside a demo or
test function is protected by a handler — in `simple_demo.py`, the
adapter construction in `demo_simple_queries` runs with no `try/except`
on any path from the script entry, so an exception there propagates out
uncaught. -/
theorem C5_counterexample :
    claimC5Holds = false ∧
      CallSite.mk "demo_simple_queries" "DataFrame" false ∈ simple_demo_py.apCallSites := by
  refine ⟨by decide, by decide⟩

/-- Claim C5, amended: in every script except `simple_demo.py`, every
askpandas call inside a demo or test function is covered by a
`try/except` that catches and prints the exception (locally or via the
top-level handler in `main`); in `simple_demo.py`, whose `main` has no
handler, the adapter calls of `demo_simple_queries` are unprotected. -/
theorem C5_amended :
    (scripts.filter (fun s => !(s.name == "simple_demo.py"))).all
      (fun s => s.apCallSites.all (fun c => !isDemoOrTestFn c.enclosingFn || c.caught)) = true := by
  decide

/-- Claim C6, counterexample: the scripts do own persistent state —
`demo.py` writes `demo_sales.csv` and `demo_customers.csv` to disk, and
every CSV file `test_basic_functionality.py` reads is one of them. -/
theorem C6_counterexample :
    claimC6Holds = false ∧
      demo_py.csvWrites = ["demo_sales.csv", "demo_customers.csv"] ∧
      test_basic_functionality_py.csvReads.all
        (fun p => demo_py.csvWrites.contains p) = true := by
  refine ⟨by decide, rfl, by decide⟩

/-- Claim C6, amended: no script other than `demo.py` and
`comprehensive_test.py` writes files to disk; `demo.py` writes
`demo_sales.csv` and `demo_customers.csv`, on which
`test_basic_functionality.py` depends, and `comprehensive_test.py`
writes `comprehensive_sample.csv`, which only it reads back. -/
theorem C6_amended :
    ((scripts.filter (fun s =>
        !(s.name == "demo.py" || s.name == "comprehensive_test.py"))).all
      (fun s => s.csvWrites.isEmpty)
     && (demo_py.csvWrites == ["demo_sales.csv", "demo_customers.csv"])
     && (comprehensive_test_py.csvWrites == ["comprehensive_sample.csv"])
     && test_basic_functionality_py.csvReads.all
          (fun p => demo_py.csvWrites.contains p)
     && comprehensive_test_py.csvReads.all
          (fun p => comprehensive_test_py.csvWrites.contains p)) = true := by
  decide

/-- Claim C7: every chat-query call site in the scripts submits a
nonempty free-text question together with at least one dataframe (either
as extra arguments to `ap.chat` or as the receiver of the adapter's
`chat` method), and prints the result. -/
theorem C7_chat_queries_carry_dataframe_and_print :
    scripts.all (fun s => s.chatCalls.all (fun c =>
      (c.receiverIsDf || !(c.dfArgs == 0)) && c.printed && !(c.question == ""))) = true := by
  decide

/-- Claim C8: `setup_lightweight_ollama` reports success exactly when
some listed model neither raises nor probes false, installs exactly the
first such model in list order (and none when there is none, returning
false), its construction attempts are exactly the listed prefix up to
and including the first available model; `auto_setup` attempts the
Hugging Face backend exactly when the Ollama setup returned false, and
succeeds iff one of the two setups succeeded. -/
theorem C8_simple_config_setup_order (env : LlmEnv) :
    (setup_lightweight_ollama env).2 = lightModels.any (modelOk env)
    ∧ configured (setup_lightweight_ollama env).1 =
        (lightModels.find? (modelOk env)).toList
    ∧ attempts (setup_lightweight_ollama env).1 =
        lightModels.takeWhile (fun m => !modelOk env m)
          ++ (lightModels.find? (modelOk env)).toList
    ∧ (auto_setup env).2 =
        ((setup_lightweight_ollama env).2 || (setup_huggingface_lightweight env).2)
    ∧ ((hfModel ∈ attempts (auto_setup env).1) ↔
        (setup_lightweight_ollama env).2 = false) := by
  refine ⟨runModels_snd env lightModels, configured_runModels env lightModels,
    attempts_runModels env lightModels, ?_, ?_⟩
  · by_cases ho : (setup_lightweight_ollama env).2 = true <;>
      simp [auto_setup, setup_lightweight_ollama] at ho ⊢ <;> simp [ho]
  · by_cases ho : (setup_lightweight_ollama env).2 = true
    · have ho2 : (runModels env lightModels).2 = true := ho
      simp [auto_setup, setup_lightweight_ollama, ho2, ho]
      intro h
      exact hfModel_not_mem_lightModels (attempts_runModels_subset env lightModels hfModel h)
    · have ho2 : (runModels env lightModels).2 = false := by
        simpa using ho
      simp [auto_setup, setup_lightweight_ollama, setup_huggingface_lightweight,
        ho2, attempts_append, attempts_setupAttempt]

/-- Claim C9: `test_basic_functionality.py` completes normally exactly
when `demo_sales.csv` and `demo_customers.csv` already exist — the state
`demo.py`'s `create_sample_data` leaves behind; when one is missing, the
adapter construction raises and the exception is caught and printed by
the top-level handler in `main`. -/
theorem C9_test_basic_requires_demo_csvs (fs : List String) :
    test_basic_main fs =
      (if fs.contains "demo_sales.csv" then
        (if fs.contains "demo_customers.csv" then RunOutcome.completed
         else RunOutcome.caughtPrinted "demo_customers.csv")
       else RunOutcome.caughtPrinted "demo_sales.csv")
    ∧ test_basic_main (create_sample_data_files fs) = RunOutcome.completed := by
  constructor
  · by_cases h1 : "demo_sales.csv" ∈ fs <;>
      by_cases h2 : "demo_customers.csv" ∈ fs <;>
      simp [test_basic_main, test_basic_reads, runReads, h1, h2]
  · have hs : "demo_sales.csv" ∈ create_sample_data_files fs := by
      simp [create_sample_data_files]
    have hc : "demo_customers.csv" ∈ create_sample_data_files fs := by
      simp [create_sample_data_files]
    simp [test_basic_main, test_basic_reads, runReads, hs, hc]

/-- Claim C10: in every script that constructs sales data, the revenue
column is the row-wise product of the price and quantity columns, the
printed total revenue is the sum over all rows of price times quantity,
and the printed average order value is that sum divided by the number of
rows; in particular for the literal table of `simple_demo.py` the total
is 1065 and the average 213. -/
theorem C10_revenue_is_price_times_quantity (rows : List SalesRow) (env : SalesEnv) :
    revenueColumn (withRevenuePQ rows) = rows.map (fun r => r.price * (r.quantity : ℚ))
    ∧ revenueColumn (withRevenueQP rows) = rows.map (fun r => r.price * (r.quantity : ℚ))
    ∧ totalRevenue (withRevenuePQ rows) =
        (rows.map (fun r => r.price * (r.quantity : ℚ))).sum
    ∧ avgOrderValue (withRevenueQP rows) =
        (rows.map (fun r => r.price * (r.quantity : ℚ))).sum / (rows.length : ℚ)
    ∧ totalRevenue (create_sample_data env) =
        ((sampleRows env 100).map (fun r => r.price * (r.quantity : ℚ))).sum
    ∧ avgOrderValue (create_sample_data env) =
        ((sampleRows env 100).map (fun r => r.price * (r.quantity : ℚ))).sum / 100
    ∧ totalRevenue (create_comprehensive_sample_data env) =
        ((sampleRows env 50).map (fun r => r.price * (r.quantity : ℚ))).sum
    ∧ avgOrderValue (create_comprehensive_sample_data env) =
        ((sampleRows env 50).map (fun r => r.price * (r.quantity : ℚ))).sum / 50
    ∧ totalRevenue create_simple_data = 1065
    ∧ avgOrderValue create_simple_data = 213 := by
  refine ⟨revenueColumn_withRevenuePQ rows, revenueColumn_withRevenueQP rows,
    totalRevenue_withRevenuePQ rows, avgOrderValue_withRevenueQP rows,
    totalRevenue_withRevenueQP _, ?_, totalRevenue_withRevenueQP _, ?_, ?_, ?_⟩
  · simp [create_sample_data, avgOrderValue_withRevenueQP, length_sampleRows]
  · simp [create_comprehensive_sample_data, avgOrderValue_withRevenueQP, length_sampleRows]
  · norm_num [create_simple_data, withRevenuePQ, simple_demo_rows, totalRevenue,
      revenueColumn]
  · norm_num [create_simple_data, withRevenuePQ, simple_demo_rows, totalRevenue,
      revenueColumn, avgOrderValue]

end AskPandas
